import Mathlib

/-!
# Verification of the superset provisioning clients

Shallow embedding of `src/scripts/rest_api_client.py` (class `RestApiClient`)
and `src/scripts/superset_client.py` (class `SupersetClient`), together with
theorems settling the specification claims about them.

Python values that matter to the claims are modelled explicitly:
JSON bodies as an inductive `JVal`, Python exceptions as `PyErr` (recording the
exception class and, where the raise site interpolates data, that data),
HTTP responses as `Response`, and the mutable `session.headers` dict as an
association list with Python `dict.update` semantics.  Each client method is
translated line by line; the network is modelled by passing the `Response`
the server produces for each request (or, for the generic client, the
`TransportEvent` describing how `session.request` ended) as an argument.
-/

/-- A JSON value, the result of `res.json()` (also standing for the Python
objects `dict`/`list`/`str`/`int`/`bool`/`None` these decode to). -/
inductive JVal : Type where
  | null : JVal
  | bool (b : Bool) : JVal
  | num (n : Int) : JVal
  | str (s : String) : JVal
  | arr (xs : List JVal) : JVal
  | obj (fields : List (String × JVal)) : JVal
deriving Repr

/-- Python truthiness (`if not x`): `None`, `False`, `0`, `""`, `[]`, `{}` are
falsy, everything else truthy. -/
def jTruthy : JVal → Bool
  | JVal.null => false
  | JVal.bool b => b
  | JVal.num n => !(n == 0)
  | JVal.str s => !(s.data.isEmpty)
  | JVal.arr xs => !(xs.isEmpty)
  | JVal.obj fs => !(fs.isEmpty)

/-- String conversion used by f-string interpolation (`f"Bearer {token}"`). -/
def pyStr : JVal → String
  | JVal.null => "None"
  | JVal.bool b => if b then "True" else "False"
  | JVal.num n => toString n
  | JVal.str s => s
  | JVal.arr _ => "[...]"
  | JVal.obj _ => "\x7b...\x7d"

/-- The distinct messages raised in `superset_client.py`, with the data each
f-string interpolates.  The original text is Japanese; constructors name the
raise sites. -/
inductive ErrMsg : Type where
  | accessTokenMissing : ErrMsg
  | csrfTokenMissing : ErrMsg
  | datasetCreateFailed (table_name text : String) : ErrMsg
  | dbSearchFailed (db_name : String) : ErrMsg
  | dbNotFound (db_name : String) : ErrMsg
  | dbAmbiguous (db_name : String) : ErrMsg
  | dsSearchFailed (dataset_name : String) : ErrMsg
  | dsNotFound (dataset_name : String) : ErrMsg
  | dsAmbiguous (dataset_name : String) (ids : List JVal) : ErrMsg
deriving Repr

/-- A Python exception, tagged by its class.  `runtimeError`/`valueError` are
the explicit `raise` sites of `superset_client.py`; `httpError` is
`requests.exceptions.HTTPError` as raised by `Response.raise_for_status`;
the rest are the interpreter-raised exceptions the dynamic code can hit. -/
inductive PyErr : Type where
  | runtimeError (m : ErrMsg) : PyErr
  | valueError (m : ErrMsg) : PyErr
  | httpError (status : Nat) : PyErr
  | keyError (k : String) : PyErr
  | indexError : PyErr
  | typeError : PyErr
  | attributeError : PyErr
  | jsonDecodeError : PyErr
deriving Repr

/-- `d.get(k)`: on a dict, the value or `None`; on any other object the
attribute lookup `.get` raises `AttributeError`. -/
def dictGet : JVal → String → Except PyErr JVal
  | JVal.obj fs, k => Except.ok ((fs.lookup k).getD JVal.null)
  | _, _ => Except.error PyErr.attributeError

/-- `d.get(k, default)`: like `dictGet` but with an explicit default. -/
def dictGetD : JVal → String → JVal → Except PyErr JVal
  | JVal.obj fs, k, d => Except.ok ((fs.lookup k).getD d)
  | _, _, _ => Except.error PyErr.attributeError

/-- `d[k]` with a string key: `KeyError` when absent, `TypeError` when `d` is
not subscriptable by strings. -/
def subscript : JVal → String → Except PyErr JVal
  | JVal.obj fs, k =>
      match fs.lookup k with
      | some v => Except.ok v
      | none => Except.error (PyErr.keyError k)
  | _, _ => Except.error PyErr.typeError

/-- `len(v)` for the sized Python values; `TypeError` otherwise. -/
def pyLen : JVal → Except PyErr Nat
  | JVal.arr xs => Except.ok xs.length
  | JVal.str s => Except.ok s.data.length
  | JVal.obj fs => Except.ok fs.length
  | _ => Except.error PyErr.typeError

/-- `v[i]` with a non-negative integer index on a list; `IndexError` out of
bounds, `TypeError`/`KeyError` on non-lists. -/
def indexNat : JVal → Nat → Except PyErr JVal
  | JVal.arr xs, i =>
      match xs[i]? with
      | some v => Except.ok v
      | none => Except.error PyErr.indexError
  | JVal.obj _, _ => Except.error (PyErr.keyError "0")
  | _, _ => Except.error PyErr.typeError

/-- Left-to-right evaluation of `[item.get("id") for item in xs]`: the first
exception aborts the comprehension. -/
def idsOfList : List JVal → Except PyErr (List JVal)
  | [] => Except.ok []
  | item :: rest =>
      match dictGet item "id" with
      | Except.error e => Except.error e
      | Except.ok v =>
          match idsOfList rest with
          | Except.error e => Except.error e
          | Except.ok vs => Except.ok (v :: vs)

/-- `[item.get("id") for item in result]` (only evaluated in the ambiguous
branch of `get_dataset_id_by_name`). -/
def idsOf : JVal → Except PyErr (List JVal)
  | JVal.arr xs => idsOfList xs
  | _ => Except.error PyErr.typeError

/-- An HTTP response as the clients observe it: status, `res.json()`
(`some` the decoded value, `none` when the body is not JSON and `.json()`
would raise), and `res.text`. -/
structure Response : Type where
  status_code : Nat
  body : Option JVal
  text : String
deriving Repr

/-- `res.json()`. -/
def pyJson (r : Response) : Except PyErr JVal :=
  match r.body with
  | some v => Except.ok v
  | none => Except.error PyErr.jsonDecodeError

/-- The condition under which `Response.raise_for_status` raises
`requests.exceptions.HTTPError`: a 4xx or 5xx status. -/
def raiseForStatusFails (r : Response) : Bool :=
  decide (400 ≤ r.status_code) && decide (r.status_code < 600)

/-- `session.headers`, a string-keyed dict kept as an ordered association
list. -/
abbrev Headers := List (String × String)

/-- `dict.update {k: v}`: replace the value in place when the key exists
(keys are unique in a dict, so replacing the first occurrence is exact),
append otherwise. -/
def headersUpdate : Headers → String → String → Headers
  | [], k, v => [(k, v)]
  | (a, b) :: t, k, v =>
      if a = k then (k, v) :: t else (a, b) :: headersUpdate t k v

/-- Header lookup. -/
def lookupHeader (hs : Headers) (k : String) : Option String :=
  hs.lookup k

/-- The headers actually sent on a request: the session's headers merged with
the per-call headers, the per-call ones winning on a collision (the `requests`
merge rule). -/
def sentHeaders (session perCall : Headers) : Headers :=
  perCall.foldl (fun acc p => headersUpdate acc p.1 p.2) session

/-- `RestApiClient.set_auth_token` / `SupersetClient.set_auth_token`:
`self.session.headers.update({"Authorization": f"{token_type} {token}"})`. -/
def set_auth_token (hs : Headers) (token : String) (token_type : String := "Bearer") : Headers :=
  headersUpdate hs "Authorization" (token_type ++ " " ++ token)

/-- Python `str.lstrip('/')`: drop every leading slash. -/
def lstripSlash (s : String) : String :=
  String.mk (s.data.dropWhile (fun c => c == '/'))

/-- Python `str.rstrip("/")`: drop every trailing slash. -/
def rstripSlash (s : String) : String :=
  String.mk ((s.data.reverse.dropWhile (fun c => c == '/')).reverse)

/-- The URL `RestApiClient._request` sends to: `self.base_url` was
`base_url.rstrip("/")` at construction, and the request builds
`f"{self.base_url}/{endpoint.lstrip('/')}"`. -/
def RestApiClient.requestUrl (base_url endpoint : String) : String :=
  rstripSlash base_url ++ "/" ++ lstripSlash endpoint

/-- The URL `SupersetClient._request` sends to — the same construction
(`base_url.rstrip("/")` in `__init__`, `endpoint.lstrip('/')` per request). -/
def SupersetClient.requestUrl (base_url endpoint : String) : String :=
  rstripSlash base_url ++ "/" ++ lstripSlash endpoint

/-- The timeout `RestApiClient._request` passes to `session.request`:
`kwargs.setdefault("timeout", self.timeout)` — the per-call value when the
`timeout` key is present in `kwargs`, the session default otherwise. -/
def RestApiClient.effectiveTimeout (perCall : Option Int) (sessionTimeout : Int) : Option Int :=
  some (perCall.getD sessionTimeout)

/-- The timeout `SupersetClient._request` passes to `session.request`: its
body forwards `kwargs` unchanged and never consults `self.timeout`, so a
missing `timeout` key stays missing (`requests` then applies no timeout). -/
def SupersetClient.effectiveTimeout (perCall : Option Int) (sessionTimeout : Int) : Option Int :=
  perCall

/-- How the underlying `session.request` call inside `RestApiClient._request`
ended: a completed exchange carrying the `Response`, or one of the exception
classes the `try` block distinguishes. -/
inductive TransportEvent : Type where
  | completed (r : Response) : TransportEvent
  | timeout : TransportEvent
  | requestException (msg : String) : TransportEvent
  | otherException (msg : String) : TransportEvent
deriving Repr

/-- `RestApiClient._request`: on a completed exchange it calls
`response.raise_for_status()` and returns the response, and every `except`
arm (`Timeout`, `HTTPError` from `raise_for_status`, `RequestException`,
bare `Exception`) logs and returns `None`.  The function is total: no
exception escapes it. -/
def RestApiClient.request (ev : TransportEvent) : Option Response :=
  match ev with
  | TransportEvent.completed r =>
      if raiseForStatusFails r then none else some r
  | TransportEvent.timeout => none
  | TransportEvent.requestException _ => none
  | TransportEvent.otherException _ => none

/-- `SupersetClient._request`: builds the URL, sends, and returns the
response unconditionally — the `raise_for_status()` line is commented out and
nothing is caught.  The `Option` records the dynamic `Response | None`
possibility its callers guard against; this function always produces
`some`. -/
def SupersetClient.request (serverResponse : Response) : Option Response :=
  some serverResponse

/-- Body of `SupersetClient.get_database_id_by_name` after the GET, the
response (possibly `None`) in hand. -/
def get_database_id_body (db_name : String) (res : Option Response) : Except PyErr JVal :=
  match res with
  | none => Except.error (PyErr.runtimeError (ErrMsg.dbSearchFailed db_name))
  | some r =>
      match pyJson r with
      | Except.error e => Except.error e
      | Except.ok j =>
          match dictGetD j "result" (JVal.arr []) with
          | Except.error e => Except.error e
          | Except.ok result =>
              if !(jTruthy result) then
                Except.error (PyErr.valueError (ErrMsg.dbNotFound db_name))
              else
                match pyLen result with
                | Except.error e => Except.error e
                | Except.ok n =>
                    if n > 1 then
                      Except.error (PyErr.valueError (ErrMsg.dbAmbiguous db_name))
                    else
                      match indexNat result 0 with
                      | Except.error e => Except.error e
                      | Except.ok first => subscript first "id"

/-- `SupersetClient.get_database_id_by_name(db_name)`, given the response the
server produces for the filtered `GET api/v1/database/?q=...`. -/
def get_database_id_by_name (db_name : String) (serverResponse : Response) : Except PyErr JVal :=
  get_database_id_body db_name (SupersetClient.request serverResponse)

/-- Body of `SupersetClient.get_dataset_id_by_name` after the GET.  Identical
shape to the database lookup except that the ambiguous branch also builds
`[item.get("id") for item in result]` for its message. -/
def get_dataset_id_body (dataset_name : String) (res : Option Response) : Except PyErr JVal :=
  match res with
  | none => Except.error (PyErr.runtimeError (ErrMsg.dsSearchFailed dataset_name))
  | some r =>
      match pyJson r with
      | Except.error e => Except.error e
      | Except.ok j =>
          match dictGetD j "result" (JVal.arr []) with
          | Except.error e => Except.error e
          | Except.ok result =>
              if !(jTruthy result) then
                Except.error (PyErr.valueError (ErrMsg.dsNotFound dataset_name))
              else
                match pyLen result with
                | Except.error e => Except.error e
                | Except.ok n =>
                    if n > 1 then
                      match idsOf result with
                      | Except.error e => Except.error e
                      | Except.ok ids =>
                          Except.error (PyErr.valueError (ErrMsg.dsAmbiguous dataset_name ids))
                    else
                      match indexNat result 0 with
                      | Except.error e => Except.error e
                      | Except.ok first => subscript first "id"

/-- `SupersetClient.get_dataset_id_by_name(dataset_name)`, given the response
the server produces for the filtered `GET api/v1/dataset/?q=...`. -/
def get_dataset_id_by_name (dataset_name : String) (serverResponse : Response) : Except PyErr JVal :=
  get_dataset_id_body dataset_name (SupersetClient.request serverResponse)

/-- `SupersetClient.create_dataset(database_id, table_name, schema)`, given
the server's response to `POST api/v1/dataset/` and (consulted only on a 422)
its response to the fallback dataset lookup.  A 201 reads `res.json()["id"]`;
a 422 falls back to `get_dataset_id_by_name(table_name)`; anything else
raises the `RuntimeError` for a failed creation.  (`database_id` and `schema`
only feed the POST payload, which the response argument already reflects.) -/
def create_dataset (database_id : Int) (table_name : String)
    (postResponse lookupResponse : Response) (schema : String := "public") :
    Except PyErr JVal :=
  match SupersetClient.request postResponse with
  | none => Except.error PyErr.attributeError
  | some res =>
      if res.status_code = 201 then
        match pyJson res with
        | Except.error e => Except.error e
        | Except.ok j => subscript j "id"
      else if res.status_code = 422 then
        get_dataset_id_by_name table_name lookupResponse
      else
        Except.error (PyErr.runtimeError (ErrMsg.datasetCreateFailed table_name res.text))

/-- `SupersetClient._authenticate`, run on the session's initial headers and
the responses the server gives the login POST and the CSRF GET.  The first
component records the session headers attached to the CSRF GET when that
request is issued at all; the second is the exception raised or the final
session headers.  Mirrors the source order: login POST, `raise_for_status`,
`access_token` extraction and truthiness check, `set_auth_token`, CSRF GET,
`raise_for_status`, `result` extraction and truthiness check, header
update. -/
def authenticate (initialHeaders : Headers) (loginResponse csrfResponse : Response) :
    Option Headers × Except PyErr Headers :=
  if raiseForStatusFails loginResponse then
    (none, Except.error (PyErr.httpError loginResponse.status_code))
  else
    match pyJson loginResponse with
    | Except.error e => (none, Except.error e)
    | Except.ok j =>
        match dictGet j "access_token" with
        | Except.error e => (none, Except.error e)
        | Except.ok token =>
            if !(jTruthy token) then
              (none, Except.error (PyErr.runtimeError ErrMsg.accessTokenMissing))
            else
              let hs1 := set_auth_token initialHeaders (pyStr token) "Bearer"
              if raiseForStatusFails csrfResponse then
                (some hs1, Except.error (PyErr.httpError csrfResponse.status_code))
              else
                match pyJson csrfResponse with
                | Except.error e => (some hs1, Except.error e)
                | Except.ok j2 =>
                    match dictGet j2 "result" with
                    | Except.error e => (some hs1, Except.error e)
                    | Except.ok csrf =>
                        if !(jTruthy csrf) then
                          (some hs1, Except.error (PyErr.runtimeError ErrMsg.csrfTokenMissing))
                        else
                          (some hs1, Except.ok (headersUpdate hs1 "X-CSRFToken" (pyStr csrf)))

/-- Python's `with` statement calls `__exit__(exc_type, exc_value, traceback)`
with three positional arguments (plus the receiver). -/
def pythonExitCallArgCount : Nat := 3

/-- `SupersetClient.__exit__` is declared `def __exit__(self):` — zero
parameters besides `self`, no defaults, no varargs. -/
def SupersetClient.exitParamCount : Nat := 0

/-- `RestApiClient.__exit__` is declared
`def __exit__(self, exc_type, exc_val, exc_tb):`. -/
def RestApiClient.exitParamCount : Nat := 3

/-- Outcome of leaving a `with` block: either the interpreter raises
`TypeError` before the method body runs (argument count does not match the
declared parameter count), or `__exit__`'s body runs and calls `close()`. -/
inductive ExitOutcome : Type where
  | typeErrorRaised : ExitOutcome
  | closeCalled : ExitOutcome
deriving Repr, DecidableEq

/-- Leaving a `with` block over a client whose `__exit__` declares
`paramCount` parameters after `self`: Python binds the three protocol
arguments against the declaration and raises `TypeError` on a mismatch,
never entering the body. -/
def runContextExit (paramCount : Nat) : ExitOutcome :=
  if paramCount = pythonExitCallArgCount then ExitOutcome.closeCalled
  else ExitOutcome.typeErrorRaised

/-- `String.mk` of `n` slashes, for quantifying over "however many slashes". -/
def mkSlashes (n : Nat) : String :=
  String.mk (List.replicate n '/')

/-- Whether a character list starts with `'/'`. -/
def headIsSlash : List Char → Bool
  | [] => false
  | c :: _ => c == '/'

/-- Whether a string starts with `'/'`. -/
def startsWithSlash (s : String) : Bool :=
  headIsSlash s.data

/-- Whether a string ends with `'/'`. -/
def endsWithSlash (s : String) : Bool :=
  headIsSlash s.data.reverse

lemma string_data_append (a b : String) : (a ++ b).data = a.data ++ b.data := by
  cases a
  cases b
  rfl

lemma dropWhile_slash_replicate (k : Nat) (l : List Char) :
    (List.replicate k '/' ++ l).dropWhile (fun c => c == '/') =
      l.dropWhile (fun c => c == '/') := by
  induction k with
  | zero => rfl
  | succ k ih => simpa [List.replicate_succ, List.dropWhile_cons] using ih

lemma headIsSlash_dropWhile (l : List Char) :
    headIsSlash (l.dropWhile (fun c => c == '/')) = false := by
  induction l with
  | nil => rfl
  | cons a t ih =>
      rcases hb : (a == '/') with _ | _
      · simp [List.dropWhile_cons, hb, headIsSlash]
      · simpa [List.dropWhile_cons, hb] using ih

lemma startsWithSlash_lstrip (s : String) : startsWithSlash (lstripSlash s) = false := by
  simpa [startsWithSlash, lstripSlash] using headIsSlash_dropWhile s.data

lemma endsWithSlash_rstrip (s : String) : endsWithSlash (rstripSlash s) = false := by
  simpa [endsWithSlash, rstripSlash, List.reverse_reverse] using
    headIsSlash_dropWhile s.data.reverse

lemma lstrip_slashes_append (j : Nat) (path : String) :
    lstripSlash (mkSlashes j ++ path) = lstripSlash path := by
  unfold lstripSlash
  rw [string_data_append]
  show String.mk ((List.replicate j '/' ++ path.data).dropWhile (fun c => c == '/')) = _
  rw [dropWhile_slash_replicate]

lemma rstrip_append_slashes (k : Nat) (base : String) :
    rstripSlash (base ++ mkSlashes k) = rstripSlash base := by
  unfold rstripSlash
  rw [string_data_append]
  show String.mk (((base.data ++ List.replicate k '/').reverse.dropWhile
      (fun c => c == '/')).reverse) = _
  rw [List.reverse_append, List.reverse_replicate, dropWhile_slash_replicate]

/-- C8: for every `base_url` and `path`, however many trailing slashes the
base carries and however many leading slashes the path carries, both clients
build the URL as the slash-free-tailed base and the slash-free-headed path
separated by exactly one slash. -/
theorem C8_url_single_slash (base path : String) (k j : Nat) :
    SupersetClient.requestUrl (base ++ mkSlashes k) (mkSlashes j ++ path) =
      SupersetClient.requestUrl base path ∧
    RestApiClient.requestUrl (base ++ mkSlashes k) (mkSlashes j ++ path) =
      RestApiClient.requestUrl base path ∧
    SupersetClient.requestUrl base path = rstripSlash base ++ "/" ++ lstripSlash path ∧
    RestApiClient.requestUrl base path = rstripSlash base ++ "/" ++ lstripSlash path ∧
    endsWithSlash (rstripSlash base) = false ∧
    startsWithSlash (lstripSlash path) = false := by
  refine ⟨?_, ?_, rfl, rfl, endsWithSlash_rstrip base, startsWithSlash_lstrip path⟩ <;>
    simp [SupersetClient.requestUrl, RestApiClient.requestUrl,
      lstrip_slashes_append, rstrip_append_slashes]

/-- C10: `SupersetClient.__exit__` is declared without the three
context-manager arguments, so leaving any `with SupersetClient(...)` block
raises `TypeError` and `close()` is never reached through the protocol;
`RestApiClient.__exit__`, declared with the three arguments, does run
`close()`. -/
theorem C10_exit_protocol :
    runContextExit SupersetClient.exitParamCount = ExitOutcome.typeErrorRaised ∧
    runContextExit RestApiClient.exitParamCount = ExitOutcome.closeCalled := by
  exact ⟨rfl, rfl⟩

/-- C7 counterexample: a `SupersetClient` request with no per-call timeout is
sent with no timeout at all, not with the session default `10` the claim
promises. -/
theorem C7_counterexample :
    SupersetClient.effectiveTimeout none 10 = none ∧
    (none : Option Int) ≠ some 10 := by
  exact ⟨rfl, by decide⟩

/-- C7 amended: a per-call timeout is the one used by both clients; with no
per-call timeout, `RestApiClient._request` applies the session default via
`kwargs.setdefault`, while `SupersetClient._request` forwards `kwargs`
unchanged and applies no timeout (its stored `self.timeout` is never
consulted). -/
theorem C7_amended_timeouts (t d : Int) :
    RestApiClient.effectiveTimeout (some t) d = some t ∧
    SupersetClient.effectiveTimeout (some t) d = some t ∧
    RestApiClient.effectiveTimeout none d = some d ∧
    SupersetClient.effectiveTimeout none d = none := by
  exact ⟨rfl, rfl, rfl, rfl⟩

/-- C3 counterexample: a connection timeout and a completed exchange with a
500 status produce the very same `None` from `RestApiClient._request`, so the
outcome is not a classified `Failure` distinguishable by kind and carries
neither the status code nor the body text. -/
theorem C3_counterexample :
    RestApiClient.request TransportEvent.timeout =
      RestApiClient.request (TransportEvent.completed ⟨500, none, "server error"⟩) ∧
    RestApiClient.request TransportEvent.timeout = none := by
  exact ⟨rfl, rfl⟩

/-- C3 amended: `RestApiClient._request` never lets an exception escape, and
every failure mode — a 4xx/5xx status, a connection timeout, any other
transport fault, or an unexpected exception — returns `None`; the kind of
failure is recorded only in the log, not in the returned value.  A completed
response whose status is outside 400–599 is returned unchanged. -/
theorem C3_amended_request_never_raises (r : Response) (m : String) :
    (raiseForStatusFails r = true →
        RestApiClient.request (TransportEvent.completed r) = none) ∧
    (raiseForStatusFails r = false →
        RestApiClient.request (TransportEvent.completed r) = some r) ∧
    RestApiClient.request TransportEvent.timeout = none ∧
    RestApiClient.request (TransportEvent.requestException m) = none ∧
    RestApiClient.request (TransportEvent.otherException m) = none := by
  refine ⟨fun h => ?_, fun h => ?_, rfl, rfl, rfl⟩ <;>
    simp [RestApiClient.request, h]

/-- Witness for the amended C3 at concrete responses. -/
theorem C3_amended_request_never_raises_witness :
    RestApiClient.request (TransportEvent.completed ⟨404, none, "not found"⟩) = none ∧
    RestApiClient.request (TransportEvent.completed ⟨200, some (JVal.obj []), "ok"⟩) =
      some ⟨200, some (JVal.obj []), "ok"⟩ := by
  exact ⟨(C3_amended_request_never_raises ⟨404, none, "not found"⟩ "x").1 (by decide),
    (C3_amended_request_never_raises ⟨200, some (JVal.obj []), "ok"⟩ "x").2.1 (by decide)⟩

/-- C5: against a server that answers the dataset POST with 201 and body
`{"id": n}` the first time, and with 422 the second time followed by a name
lookup whose single match is the dataset created first, both
`create_or_get_dataset` calls return the same id `n` and neither fails. -/
theorem C5_idempotent_create (n : Int) :
    create_dataset 1 "sales"
        ⟨201, some (JVal.obj [("id", JVal.num n)]), ""⟩
        ⟨200, some (JVal.obj [("result", JVal.arr [JVal.obj [("id", JVal.num n)]])]), ""⟩
        "public" = Except.ok (JVal.num n) ∧
    create_dataset 1 "sales"
        ⟨422, some (JVal.obj []), "already exists"⟩
        ⟨200, some (JVal.obj [("result", JVal.arr [JVal.obj [("id", JVal.num n)]])]), ""⟩
        "public" = Except.ok (JVal.num n) := by
  exact ⟨rfl, rfl⟩

/-- C1: `create_or_get_dataset`'s three branches.  A 201 returns the `id`
field of the response body; a 422 returns exactly what
`get_dataset_id_by_name(table_name)` (the spec's `find_dataset_by_name`)
produces on the fallback lookup; any other status raises the creation-failed
`RuntimeError` (the spec's `ProvisioningError`) carrying the response text,
so no id is returned. -/
theorem C1_create_dataset_branches (database_id : Int) (table_name schema : String)
    (post lookupRes : Response) :
    (post.status_code = 201 → ∀ j v, post.body = some j →
        subscript j "id" = Except.ok v →
        create_dataset database_id table_name post lookupRes schema = Except.ok v) ∧
    (post.status_code = 422 →
        create_dataset database_id table_name post lookupRes schema =
          get_dataset_id_by_name table_name lookupRes) ∧
    (post.status_code ≠ 201 → post.status_code ≠ 422 →
        create_dataset database_id table_name post lookupRes schema =
          Except.error (PyErr.runtimeError (ErrMsg.datasetCreateFailed table_name post.text))) := by
  refine ⟨fun h j v hb hid => ?_, fun h => ?_, fun h1 h2 => ?_⟩ <;>
    simp [create_dataset, SupersetClient.request, pyJson, *]

/-- Witness for C1 at concrete responses exercising each branch. -/
theorem C1_create_dataset_branches_witness :
    create_dataset 1 "t" ⟨201, some (JVal.obj [("id", JVal.num 7)]), ""⟩
        ⟨200, some (JVal.obj []), ""⟩ "public" = Except.ok (JVal.num 7) ∧
    create_dataset 1 "t" ⟨422, some (JVal.obj []), "conflict"⟩
        ⟨200, some (JVal.obj [("result", JVal.arr [JVal.obj [("id", JVal.num 9)]])]), ""⟩
        "public" =
      get_dataset_id_by_name "t"
        ⟨200, some (JVal.obj [("result", JVal.arr [JVal.obj [("id", JVal.num 9)]])]), ""⟩ ∧
    create_dataset 1 "t" ⟨500, none, "boom"⟩ ⟨200, some (JVal.obj []), ""⟩ "public" =
      Except.error (PyErr.runtimeError (ErrMsg.datasetCreateFailed "t" "boom")) := by
  refine ⟨(C1_create_dataset_branches 1 "t" "public" _ _).1 rfl
      (JVal.obj [("id", JVal.num 7)]) (JVal.num 7) rfl rfl,
    (C1_create_dataset_branches 1 "t" "public" _ _).2.1 rfl,
    (C1_create_dataset_branches 1 "t" "public" _ _).2.2 (by decide) (by decide)⟩

/-- C2 counterexample: a login endpoint answering status 500 makes the
constructor raise the `requests` `HTTPError` propagated by
`res.raise_for_status()`, not the `RuntimeError` raise site that plays the
spec's `AuthenticationError` — the claim's "any failed call raises
AuthenticationError" is false on the code. -/
theorem C2_counterexample :
    authenticate [] ⟨500, some (JVal.obj []), "Internal Server Error"⟩
        ⟨200, some (JVal.obj [("result", JVal.str "csrf456")]), ""⟩ =
      (none, Except.error (PyErr.httpError 500)) ∧
    PyErr.httpError 500 ≠ PyErr.runtimeError ErrMsg.accessTokenMissing := by
  exact ⟨rfl, fun h => PyErr.noConfusion h⟩

/-- C2 amended: a login call with a 4xx/5xx status makes the constructor
raise `HTTPError(status)`, and a successful login whose body lacks a truthy
`access_token` makes it raise the access-token `RuntimeError` (the spec's
`AuthenticationError`); in both cases `_authenticate` ends in an exception,
no CSRF request is ever issued, and no authenticated session exists, so no
subsequent API call on it can succeed. -/
theorem C2_amended_login_failure (initialHeaders : Headers) (login csrf : Response) :
    (raiseForStatusFails login = true →
        authenticate initialHeaders login csrf =
          (none, Except.error (PyErr.httpError login.status_code))) ∧
    (∀ j t, raiseForStatusFails login = false → login.body = some j →
        dictGet j "access_token" = Except.ok t → jTruthy t = false →
        authenticate initialHeaders login csrf =
          (none, Except.error (PyErr.runtimeError ErrMsg.accessTokenMissing))) := by
  refine ⟨fun h => ?_, fun j t h hb ht htr => ?_⟩ <;>
    simp [authenticate, pyJson, *]

/-- Witness for the amended C2: a 500 login and a 200 login with an empty
body each abort authentication with the stated exception. -/
theorem C2_amended_login_failure_witness :
    authenticate [] ⟨500, some (JVal.obj []), "err"⟩
        ⟨200, some (JVal.obj [("result", JVal.str "c")]), ""⟩ =
      (none, Except.error (PyErr.httpError 500)) ∧
    authenticate [] ⟨200, some (JVal.obj []), ""⟩
        ⟨200, some (JVal.obj [("result", JVal.str "c")]), ""⟩ =
      (none, Except.error (PyErr.runtimeError ErrMsg.accessTokenMissing)) := by
  exact ⟨(C2_amended_login_failure [] _ _).1 (by decide),
    (C2_amended_login_failure [] _ _).2 (JVal.obj []) JVal.null (by decide) rfl rfl rfl⟩

lemma lookupHeader_update_self (hs : Headers) (k v : String) :
    lookupHeader (headersUpdate hs k v) k = some v := by
  induction hs with
  | nil => simp [headersUpdate, lookupHeader, List.lookup]
  | cons p t ih =>
      obtain ⟨a, b⟩ := p
      by_cases h : a = k
      · simp [headersUpdate, lookupHeader, List.lookup, h]
      · simp only [headersUpdate, lookupHeader, List.lookup, if_neg h]
        have hk : (k == a) = false := by
          simp [beq_iff_eq]
          exact fun hh => h hh.symm
        simpa [List.lookup, hk] using ih

lemma lookupHeader_update_other (hs : Headers) (k v k2 : String) (hne : k2 ≠ k) :
    lookupHeader (headersUpdate hs k v) k2 = lookupHeader hs k2 := by
  have hkk : (k2 == k) = false := by
    simp [beq_iff_eq]
    exact hne
  induction hs with
  | nil => simp [headersUpdate, lookupHeader, List.lookup, hkk]
  | cons p t ih =>
      obtain ⟨a, b⟩ := p
      by_cases h : a = k
      · subst h
        simp [headersUpdate, lookupHeader, List.lookup, hkk]
      · rcases hk2 : (k2 == a) with _ | _ <;>
          simp [headersUpdate, lookupHeader, List.lookup, if_neg h, hk2] <;>
          simpa [lookupHeader, List.lookup] using ih

lemma lookupHeader_sentHeaders (perCall : List (String × String)) (hs : Headers)
    (k : String) (hnc : ∀ p ∈ perCall, p.1 ≠ k) :
    lookupHeader (sentHeaders hs perCall) k = lookupHeader hs k := by
  induction perCall generalizing hs with
  | nil => rfl
  | cons p t ih =>
      have hstep : sentHeaders hs (p :: t) = sentHeaders (headersUpdate hs p.1 p.2) t := rfl
      rw [hstep, ih _ (fun q hq => hnc q (List.mem_cons_of_mem p hq))]
      exact lookupHeader_update_other hs p.1 p.2 k
        (fun hh => hnc p (List.mem_cons_self p t) (by simpa using hh.symm))

/-- C6 counterexample: with a successful login but a CSRF endpoint answering
status 500, the constructor raises the `HTTPError` propagated by
`res.raise_for_status()`, not the `RuntimeError` raise site that plays the
spec's `AuthenticationError("csrf token missing")` — the claim's "if the CSRF
call fails ... raises AuthenticationError" is false on the code. -/
theorem C6_counterexample :
    authenticate [] ⟨200, some (JVal.obj [("access_token", JVal.str "tok123")]), ""⟩
        ⟨500, some (JVal.obj []), "err"⟩ =
      (some (set_auth_token [] "tok123" "Bearer"), Except.error (PyErr.httpError 500)) ∧
    PyErr.httpError 500 ≠ PyErr.runtimeError ErrMsg.csrfTokenMissing := by
  exact ⟨rfl, fun h => PyErr.noConfusion h⟩

/-- C6 amended: after a successful login, the `Authorization: Bearer <token>`
header is attached before the CSRF endpoint is fetched, so the CSRF GET
carries the bearer header.  If the CSRF response has a 4xx/5xx status the
constructor raises `HTTPError(status)`; if it succeeds but its body lacks a
truthy `result` value it raises the CSRF `RuntimeError` (the spec's
`AuthenticationError("csrf token missing")`); otherwise `X-CSRFToken` is
attached to the session headers and is carried on every subsequent request
whose per-call headers do not override it. -/
theorem C6_amended_handshake_order (initialHeaders : Headers) (login csrf : Response)
    (j t : JVal) (hl : raiseForStatusFails login = false) (hb : login.body = some j)
    (ht : dictGet j "access_token" = Except.ok t) (htr : jTruthy t = true) :
    (authenticate initialHeaders login csrf).1 =
      some (set_auth_token initialHeaders (pyStr t) "Bearer") ∧
    lookupHeader (set_auth_token initialHeaders (pyStr t) "Bearer") "Authorization" =
      some ("Bearer " ++ pyStr t) ∧
    (raiseForStatusFails csrf = true →
        (authenticate initialHeaders login csrf).2 =
          Except.error (PyErr.httpError csrf.status_code)) ∧
    (∀ j2 c, raiseForStatusFails csrf = false → csrf.body = some j2 →
        dictGet j2 "result" = Except.ok c → jTruthy c = false →
        (authenticate initialHeaders login csrf).2 =
          Except.error (PyErr.runtimeError ErrMsg.csrfTokenMissing)) ∧
    (∀ j2 c, raiseForStatusFails csrf = false → csrf.body = some j2 →
        dictGet j2 "result" = Except.ok c → jTruthy c = true →
        (authenticate initialHeaders login csrf).2 =
          Except.ok (headersUpdate (set_auth_token initialHeaders (pyStr t) "Bearer")
            "X-CSRFToken" (pyStr c)) ∧
        lookupHeader (headersUpdate (set_auth_token initialHeaders (pyStr t) "Bearer")
            "X-CSRFToken" (pyStr c)) "X-CSRFToken" = some (pyStr c) ∧
        ∀ perCall : Headers, (∀ p ∈ perCall, p.1 ≠ "X-CSRFToken") →
          lookupHeader (sentHeaders (headersUpdate (set_auth_token initialHeaders (pyStr t)
              "Bearer") "X-CSRFToken" (pyStr c)) perCall) "X-CSRFToken" = some (pyStr c)) := by
  refine ⟨?_, ?_, fun hc => ?_, fun j2 c hc hb2 hr hcr => ?_, fun j2 c hc hb2 hr hcr => ?_⟩
  · simp only [authenticate, pyJson, hl, hb, ht, htr]
    repeat' split
    all_goals simp_all
  · exact lookupHeader_update_self initialHeaders "Authorization" ("Bearer " ++ pyStr t)
  · simp [authenticate, pyJson, hl, hb, ht, htr, hc]
  · simp [authenticate, pyJson, hl, hb, ht, htr, hc, hb2, hr, hcr]
  · refine ⟨by simp [authenticate, pyJson, hl, hb, ht, htr, hc, hb2, hr, hcr], ?_, ?_⟩
    · exact lookupHeader_update_self _ "X-CSRFToken" (pyStr c)
    · intro perCall hnc
      rw [lookupHeader_sentHeaders perCall _ "X-CSRFToken" hnc]
      exact lookupHeader_update_self _ "X-CSRFToken" (pyStr c)

/-- Witness for the amended C6: the spec's own scenario — login returns
`{"access_token": "tok123"}`, the CSRF endpoint returns
`{"result": "csrf456"}` — issues the CSRF GET with the bearer header attached
and ends with `X-CSRFToken` in the session headers, carried on a subsequent
request with unrelated per-call headers. -/
theorem C6_amended_handshake_order_witness :
    (authenticate [] ⟨200, some (JVal.obj [("access_token", JVal.str "tok123")]), ""⟩
        ⟨200, some (JVal.obj [("result", JVal.str "csrf456")]), ""⟩).1 =
      some (set_auth_token [] (pyStr (JVal.str "tok123")) "Bearer") ∧
    lookupHeader (set_auth_token [] (pyStr (JVal.str "tok123")) "Bearer") "Authorization" =
      some ("Bearer " ++ pyStr (JVal.str "tok123")) ∧
    (authenticate [] ⟨200, some (JVal.obj [("access_token", JVal.str "tok123")]), ""⟩
        ⟨200, some (JVal.obj [("result", JVal.str "csrf456")]), ""⟩).2 =
      Except.ok (headersUpdate (set_auth_token [] (pyStr (JVal.str "tok123")) "Bearer")
        "X-CSRFToken" (pyStr (JVal.str "csrf456"))) ∧
    lookupHeader (sentHeaders (headersUpdate (set_auth_token [] (pyStr (JVal.str "tok123"))
        "Bearer") "X-CSRFToken" (pyStr (JVal.str "csrf456"))) [("Accept", "application/json")])
      "X-CSRFToken" = some (pyStr (JVal.str "csrf456")) := by
  have h := C6_amended_handshake_order []
    ⟨200, some (JVal.obj [("access_token", JVal.str "tok123")]), ""⟩
    ⟨200, some (JVal.obj [("result", JVal.str "csrf456")]), ""⟩
    (JVal.obj [("access_token", JVal.str "tok123")]) (JVal.str "tok123")
    (by decide) rfl rfl rfl
  have h5 := h.2.2.2.2 (JVal.obj [("result", JVal.str "csrf456")]) (JVal.str "csrf456")
    (by decide) rfl rfl rfl
  exact ⟨h.1, h.2.1, h5.1, h5.2.2 [("Accept", "application/json")] (by decide)⟩

lemma dictGet_ne_runtime (j : JVal) (k : String) (m : ErrMsg) :
    dictGet j k ≠ Except.error (PyErr.runtimeError m) := by
  cases j <;> simp [dictGet]

lemma dictGetD_ne_runtime (j : JVal) (k : String) (d : JVal) (m : ErrMsg) :
    dictGetD j k d ≠ Except.error (PyErr.runtimeError m) := by
  cases j <;> simp [dictGetD]

lemma pyLen_ne_runtime (v : JVal) (m : ErrMsg) :
    pyLen v ≠ Except.error (PyErr.runtimeError m) := by
  cases v <;> simp [pyLen]

lemma indexNat_ne_runtime (v : JVal) (i : Nat) (m : ErrMsg) :
    indexNat v i ≠ Except.error (PyErr.runtimeError m) := by
  cases v with
  | arr xs => cases h : xs[i]? <;> simp [indexNat, h]
  | null => simp [indexNat]
  | bool b => simp [indexNat]
  | num n => simp [indexNat]
  | str s => simp [indexNat]
  | obj fs => simp [indexNat]

lemma subscript_ne_runtime (v : JVal) (k : String) (m : ErrMsg) :
    subscript v k ≠ Except.error (PyErr.runtimeError m) := by
  cases v with
  | obj fs => cases h : fs.lookup k <;> simp [subscript, h]
  | null => simp [subscript]
  | bool b => simp [subscript]
  | num n => simp [subscript]
  | str s => simp [subscript]
  | arr xs => simp [subscript]

lemma idsOfList_ne_runtime (xs : List JVal) (m : ErrMsg) :
    idsOfList xs ≠ Except.error (PyErr.runtimeError m) := by
  induction xs with
  | nil => simp [idsOfList]
  | cons a t ih =>
      simp only [idsOfList]
      cases hd : dictGet a "id" with
      | error e =>
          intro h
          injection h with h1
          exact dictGet_ne_runtime a "id" m (h1 ▸ hd)
      | ok v =>
          cases hr : idsOfList t with
          | error e =>
              intro h
              injection h with h1
              exact ih (h1 ▸ hr)
          | ok vs => simp

lemma idsOf_ne_runtime (v : JVal) (m : ErrMsg) :
    idsOf v ≠ Except.error (PyErr.runtimeError m) := by
  cases v <;> simp [idsOf, idsOfList_ne_runtime]

lemma db_body_ne_runtime (name : String) (r : Response) (m : ErrMsg) :
    get_database_id_body name (some r) ≠ Except.error (PyErr.runtimeError m) := by
  unfold get_database_id_body
  cases hb : r.body with
  | none => simp [pyJson, hb]
  | some j =>
      simp only [pyJson, hb]
      cases hd : dictGetD j "result" (JVal.arr []) with
      | error e =>
          intro h
          injection h with h1
          exact dictGetD_ne_runtime j "result" (JVal.arr []) m (h1 ▸ hd)
      | ok result =>
          rcases htr : jTruthy result with _ | _
          · simp [htr]
          · simp only [htr]
            cases hl : pyLen result with
            | error e =>
                intro h
                injection h with h1
                exact pyLen_ne_runtime result m (h1 ▸ hl)
            | ok n =>
                by_cases hn : n > 1
                · simp [hn]
                · simp only [hn, if_neg, if_false, Bool.not_true, reduceIte]
                  cases hi : indexNat result 0 with
                  | error e =>
                      intro h
                      injection h with h1
                      exact indexNat_ne_runtime result 0 m (h1 ▸ hi)
                  | ok first => exact subscript_ne_runtime first "id" m

lemma ds_body_ne_runtime (name : String) (r : Response) (m : ErrMsg) :
    get_dataset_id_body name (some r) ≠ Except.error (PyErr.runtimeError m) := by
  unfold get_dataset_id_body
  cases hb : r.body with
  | none => simp [pyJson, hb]
  | some j =>
      simp only [pyJson, hb]
      cases hd : dictGetD j "result" (JVal.arr []) with
      | error e =>
          intro h
          injection h with h1
          exact dictGetD_ne_runtime j "result" (JVal.arr []) m (h1 ▸ hd)
      | ok result =>
          rcases htr : jTruthy result with _ | _
          · simp [htr]
          · simp only [htr]
            cases hl : pyLen result with
            | error e =>
                intro h
                injection h with h1
                exact pyLen_ne_runtime result m (h1 ▸ hl)
            | ok n =>
                by_cases hn : n > 1
                · simp only [hn, if_pos, reduceIte]
                  cases hi : idsOf result with
                  | error e =>
                      intro h
                      injection h with h1
                      exact idsOf_ne_runtime result m (h1 ▸ hi)
                  | ok ids => simp
                · simp only [hn, if_neg, if_false, Bool.not_true, reduceIte]
                  cases hi : indexNat result 0 with
                  | error e =>
                      intro h
                      injection h with h1
                      exact indexNat_ne_runtime result 0 m (h1 ▸ hi)
                  | ok first => exact subscript_ne_runtime first "id" m

/-- C9: `SupersetClient._request` (hence `get`) returns the server's
`Response` unconditionally — never `None` — so the `res is None` guards in
`get_database_id_by_name` and `get_dataset_id_by_name` are dead: neither
function can ever produce the search-failed `RuntimeError` (indeed no
`RuntimeError` at all) for any server response. -/
theorem C9_search_failed_unreachable (db_name dataset_name : String) (r : Response)
    (m : ErrMsg) :
    SupersetClient.request r = some r ∧
    get_database_id_by_name db_name r ≠ Except.error (PyErr.runtimeError m) ∧
    get_dataset_id_by_name dataset_name r ≠ Except.error (PyErr.runtimeError m) := by
  exact ⟨rfl, db_body_ne_runtime db_name r m, ds_body_ne_runtime dataset_name r m⟩

/-- C4: the zero/one/many policy of both name lookups.  Exactly one match
returns that match's `id`; zero matches raises the not-found `ValueError`
(the spec's `NotFoundError`); two or more matches raises the ambiguous
`ValueError` (the spec's `AmbiguousResultError`), a different error value
than the not-found one, and no id is ever returned — the first match is
never silently picked. -/
theorem C4_lookup_zero_one_many (name : String) (res : Response) :
    (∀ j m v, res.body = some j →
        dictGetD j "result" (JVal.arr []) = Except.ok (JVal.arr [m]) →
        subscript m "id" = Except.ok v →
        get_database_id_by_name name res = Except.ok v ∧
        get_dataset_id_by_name name res = Except.ok v) ∧
    (∀ j, res.body = some j →
        dictGetD j "result" (JVal.arr []) = Except.ok (JVal.arr []) →
        get_database_id_by_name name res =
          Except.error (PyErr.valueError (ErrMsg.dbNotFound name)) ∧
        get_dataset_id_by_name name res =
          Except.error (PyErr.valueError (ErrMsg.dsNotFound name))) ∧
    (∀ j ms, res.body = some j →
        dictGetD j "result" (JVal.arr []) = Except.ok (JVal.arr ms) →
        2 ≤ ms.length →
        get_database_id_by_name name res =
          Except.error (PyErr.valueError (ErrMsg.dbAmbiguous name)) ∧
        (∀ ids, idsOf (JVal.arr ms) = Except.ok ids →
          get_dataset_id_by_name name res =
            Except.error (PyErr.valueError (ErrMsg.dsAmbiguous name ids))) ∧
        (∀ v, get_database_id_by_name name res ≠ Except.ok v) ∧
        (∀ v, get_dataset_id_by_name name res ≠ Except.ok v)) ∧
    (∀ ids, PyErr.valueError (ErrMsg.dbNotFound name) ≠
        PyErr.valueError (ErrMsg.dbAmbiguous name) ∧
      PyErr.valueError (ErrMsg.dsNotFound name) ≠
        PyErr.valueError (ErrMsg.dsAmbiguous name ids)) := by
  refine ⟨fun j m v hb hres hid => ?_, fun j hb hres => ?_, fun j ms hb hres hlen => ?_,
    fun ids => by simp⟩
  · constructor <;>
      simp [get_database_id_by_name, get_dataset_id_by_name, get_database_id_body,
        get_dataset_id_body, SupersetClient.request, pyJson, hb, hres, hid, jTruthy,
        pyLen, indexNat]
  · constructor <;>
      simp [get_database_id_by_name, get_dataset_id_by_name, get_database_id_body,
        get_dataset_id_body, SupersetClient.request, pyJson, hb, hres, jTruthy]
  · rcases ms with _ | ⟨a, ms⟩
    · simp at hlen
    rcases ms with _ | ⟨b, t⟩
    · simp at hlen
    have hgt : 1 < (a :: b :: t).length := by
      simp [List.length_cons]
    refine ⟨?_, fun ids hids => ?_, fun v => ?_, fun v => ?_⟩
    · simp [get_database_id_by_name, get_database_id_body, SupersetClient.request,
        pyJson, hb, hres, jTruthy, pyLen, hgt]
    · simp [get_dataset_id_by_name, get_dataset_id_body, SupersetClient.request,
        pyJson, hb, hres, jTruthy, pyLen, hgt, hids]
    · simp [get_database_id_by_name, get_database_id_body, SupersetClient.request,
        pyJson, hb, hres, jTruthy, pyLen, hgt]
    · cases hio : idsOf (JVal.arr (a :: b :: t)) <;>
        simp [get_dataset_id_by_name, get_dataset_id_body, SupersetClient.request,
          pyJson, hb, hres, jTruthy, pyLen, hgt, hio]

/-- Witness for C4 at concrete responses with one, zero, and two matches. -/
theorem C4_lookup_zero_one_many_witness :
    get_database_id_by_name "db1"
        ⟨200, some (JVal.obj [("result", JVal.arr [JVal.obj [("id", JVal.num 5)]])]), ""⟩ =
      Except.ok (JVal.num 5) ∧
    get_database_id_by_name "db1" ⟨200, some (JVal.obj [("result", JVal.arr [])]), ""⟩ =
      Except.error (PyErr.valueError (ErrMsg.dbNotFound "db1")) ∧
    get_database_id_by_name "db1"
        ⟨200, some (JVal.obj [("result",
          JVal.arr [JVal.obj [("id", JVal.num 5)], JVal.obj [("id", JVal.num 6)]])]), ""⟩ =
      Except.error (PyErr.valueError (ErrMsg.dbAmbiguous "db1")) ∧
    get_dataset_id_by_name "ds1"
        ⟨200, some (JVal.obj [("result",
          JVal.arr [JVal.obj [("id", JVal.num 5)], JVal.obj [("id", JVal.num 6)]])]), ""⟩ =
      Except.error (PyErr.valueError
        (ErrMsg.dsAmbiguous "ds1" [JVal.num 5, JVal.num 6])) := by
  refine ⟨((C4_lookup_zero_one_many "db1" _).1 (JVal.obj [("result",
      JVal.arr [JVal.obj [("id", JVal.num 5)]])]) (JVal.obj [("id", JVal.num 5)])
      (JVal.num 5) rfl rfl rfl).1,
    ((C4_lookup_zero_one_many "db1" _).2.1 (JVal.obj [("result", JVal.arr [])]) rfl rfl).1,
    ((C4_lookup_zero_one_many "db1" _).2.2.1 (JVal.obj [("result",
      JVal.arr [JVal.obj [("id", JVal.num 5)], JVal.obj [("id", JVal.num 6)]])])
      [JVal.obj [("id", JVal.num 5)], JVal.obj [("id", JVal.num 6)]] rfl rfl
      (by decide)).1,
    ((C4_lookup_zero_one_many "ds1" _).2.2.1 (JVal.obj [("result",
      JVal.arr [JVal.obj [("id", JVal.num 5)], JVal.obj [("id", JVal.num 6)]])])
      [JVal.obj [("id", JVal.num 5)], JVal.obj [("id", JVal.num 6)]] rfl rfl
      (by decide)).2.1 [JVal.num 5, JVal.num 6] rfl⟩
